import Mathlib

/-!
Shallow embedding of the batch-orchestration core of the GlobalPic backend:

* `app/services/batch_processor.py` — the `BatchProcessor` class (task table,
  background loop, per-item aggregation, cancellation, download packaging);
* `app/api/v1/batch.py` — request validation in `create_batch_task`;
* `app/services/modelscope_client.py` — `ModelScopeClient._wait_for_result`;
* `app/services/image_service.py` — `ImageService.update_processing_job_status`.

External AI collaborators (`ocr_service.detect_text`, `sam_service.segment_subject`,
`zimage_service.inpaint` / `generate_background`) are opaque asynchronous calls;
they are modelled as oracle parameters (`StageEnv`) giving, for each call, either
the returned result dictionary or the message of a raised exception.  Wall-clock
timestamps (`datetime.now()`) are modelled as `Nat` parameters; Python `float`
progress arithmetic is modelled exactly over `ℚ`.
-/

namespace GlobalPic

/-- Batch task status constants of `BatchProcessor`
(`STATUS_PENDING` … `STATUS_CANCELLED`, batch_processor.py lines 25–29). -/
inductive BStatus
  | pending
  | processing
  | completed
  | failed
  | cancelled
deriving DecidableEq

/-- One element of `image_data_list`: `{"image": base64, "filename": str | None}`. -/
structure ImageItem where
  image : String
  filename : Option String
deriving DecidableEq

/-- One entry of `task["results"]` (batch_processor.py lines 128–136). -/
structure ResultEntry where
  index : Nat
  filename : String
  success : Bool
  output : Option (List String)
  error : Option String
deriving DecidableEq

/-- One entry of `task["errors"]` appended by the per-item exception branch
(batch_processor.py line 148). -/
structure ErrorEntry where
  index : Nat
  error : String
deriving DecidableEq

/-- The mutable batch task record stored in `self.tasks[task_id]`
(batch_processor.py lines 56–72).  `progress` is the Python float
`processed_images / total_images * 100`, modelled exactly in `ℚ`. -/
structure BatchTask where
  userId : Nat
  status : BStatus
  totalImages : Nat
  processedImages : Nat
  successCount : Nat
  failedCount : Nat
  operations : List String
  styleId : String
  imageData : List ImageItem
  results : List ResultEntry
  errors : List ErrorEntry
  createdAt : Nat
  completedAt : Option Nat
  progress : ℚ
deriving DecidableEq

/-- The fresh task record built by `BatchProcessor.create_task`
(batch_processor.py lines 56–72). -/
def initTask (uid : Nat) (imgs : List ImageItem) (ops : List String)
    (sid : String) (now : Nat) : BatchTask :=
  { userId := uid
    status := .pending
    totalImages := imgs.length
    processedImages := 0
    successCount := 0
    failedCount := 0
    operations := ops
    styleId := sid
    imageData := imgs
    results := []
    errors := []
    createdAt := now
    completedAt := none
    progress := 0 }

/-- Result dictionary returned by a stage's provider call: either
`{"success": True, "images": [...]}` or `{"success": False, "error": msg}`. -/
inductive OpResult
  | success (images : List String)
  | failure (error : String)
deriving DecidableEq

instance {ε α : Type} [DecidableEq ε] [DecidableEq α] : DecidableEq (Except ε α) :=
  fun a b =>
    match a, b with
    | .error x, .error y =>
      if h : x = y then .isTrue (by rw [h])
      else .isFalse (by intro hh; cases hh; exact h rfl)
    | .error _, .ok _ => .isFalse (by intro hh; cases hh)
    | .ok _, .error _ => .isFalse (by intro hh; cases hh)
    | .ok x, .ok y =>
      if h : x = y then .isTrue (by rw [h])
      else .isFalse (by intro hh; cases hh; exact h rfl)

/-- Oracle for the external collaborator calls made while handling one
operation of `_process_single_image` on one image.  `.error msg` models a
raised exception, `.ok` the value the call returned. -/
structure StageEnv where
  /-- `ocr_service.detect_text(image)`: `(result["success"], text_regions ≠ [])`.
  Mask generation (`_generate_mask`) exceptions are folded into `inpaint`. -/
  ocrDetect : Except String (Bool × Bool)
  /-- `zimage_service.inpaint(image, mask, prompt)`: result dict or exception. -/
  inpaint : Except String OpResult
  /-- `sam_service.segment_subject(image)`: `result["success"]` or exception. -/
  segment : Except String Bool
  /-- `zimage_service.generate_background(...)`: raises on failure. -/
  generateBackground : Except String Unit
  /-- `self._encode_image(image)` of the unchanged original (no-text shortcut). -/
  originalEncoded : String
  /-- `self._encode_image(self._composite_image(image, background, mask))`. -/
  compositeEncoded : String
deriving DecidableEq

/-- One iteration of the `for operation in operations` loop of
`_process_single_image` (batch_processor.py lines 186–220): the `result`
dictionary computed for this operation, or a raised exception. -/
def stageRun (op : String) (e : StageEnv) : Except String OpResult :=
  if op = "text_removal" then
    match e.ocrDetect with
    | .error m => .error m
    | .ok (succ, hasRegions) =>
      if succ && hasRegions then e.inpaint
      else .ok (.success [e.originalEncoded])
  else if op = "background_replacement" then
    match e.segment with
    | .error m => .error m
    | .ok true =>
      match e.generateBackground with
      | .error m => .error m
      | .ok _ => .ok (.success [e.compositeEncoded])
    | .ok false => .ok (.failure "分割失败")
  else .ok (.failure ("不支持的操作: " ++ op))

/-- The chained accumulation of `output_urls` over the operation list
(batch_processor.py lines 184–223): a successful stage extends the
accumulator with its images, a stage whose result dict is unsuccessful is
skipped, and a raised exception aborts the chain. -/
def processStages (env : Nat → StageEnv) :
    List String → Nat → List String → Except String (List String)
  | [], _, acc => .ok acc
  | op :: rest, k, acc =>
    match stageRun op (env k) with
    | .error m => .error m
    | .ok (.success imgs) => processStages env rest (k + 1) (acc ++ imgs)
    | .ok (.failure _) => processStages env rest (k + 1) acc

/-- The dictionary returned by `_process_single_image`
(batch_processor.py lines 225–233); `processing_time` is omitted. -/
structure SingleResult where
  success : Bool
  output : Option (List String)
  error : Option String
deriving DecidableEq

/-- `BatchProcessor._process_single_image` (batch_processor.py lines 173–233):
the try-body folds the operations; an escaping exception yields the
`{"success": False, "error": str(e)}` dictionary (which carries no `output`
key), otherwise `success` is `len(output_urls) > 0`. -/
def processSingleImage (ops : List String) (env : Nat → StageEnv) : SingleResult :=
  match processStages env ops 0 [] with
  | .error m => { success := false, output := none, error := some m }
  | .ok urls => { success := !urls.isEmpty, output := some urls, error := none }

/-- Outcome of one iteration of the background loop's per-item `try` block
(batch_processor.py lines 115–151): either `_decode_image` and
`_process_single_image` returned a result dict, or an exception escaped. -/
inductive ItemOutcome
  | ok (r : SingleResult)
  | exn (msg : String)
deriving DecidableEq

/-- Whether an item outcome is the exception branch. -/
def ItemOutcome.isExn : ItemOutcome → Bool
  | .ok _ => false
  | .exn _ => true

/-- `image_data.get("filename", f"image_{i}.jpg")` (batch_processor.py line 131). -/
def entryFilename (it : ImageItem) (i : Nat) : String :=
  it.filename.getD ("image_" ++ toString i ++ ".jpg")

/-- The lock-protected per-item update of the background loop
(batch_processor.py lines 124–151): the normal branch (lines 124–139)
and the per-item exception branch (lines 143–151). -/
def stepItem (t : BatchTask) (i : Nat) (it : ImageItem) (o : ItemOutcome) : BatchTask :=
  match o with
  | .ok r =>
    { t with
      processedImages := t.processedImages + 1
      successCount := t.successCount + (if r.success then 1 else 0)
      failedCount := t.failedCount + (if r.success then 0 else 1)
      results := t.results ++
        [{ index := i
           filename := entryFilename it i
           success := r.success
           output := if r.success then r.output else none
           error := if r.success then none else r.error }]
      progress := ((t.processedImages + 1 : ℚ) / (t.totalImages : ℚ)) * 100 }
  | .exn m =>
    { t with
      processedImages := t.processedImages + 1
      failedCount := t.failedCount + 1
      errors := t.errors ++ [{ index := i, error := m }]
      progress := ((t.processedImages + 1 : ℚ) / (t.totalImages : ℚ)) * 100 }

/-- `task["status"] = self.STATUS_PROCESSING` (batch_processor.py line 93). -/
def startProcessing (t : BatchTask) : BatchTask :=
  { t with status := .processing }

/-- State of the task record after the background loop of `_process_task` has
processed the first `k` images of `t0.imageData` (batch_processor.py
lines 109–151), with `proc i` the outcome of decoding and processing image
`i`.  `loopState t0 proc k` for `k` ranging over `0 … imageData.length` (and
the task's state after optional cancellation or finalisation) enumerates
the states `get_task_status` can observe under the lock. -/
def loopState (t0 : BatchTask) (proc : Nat → ItemOutcome) : Nat → BatchTask
  | 0 => startProcessing t0
  | k + 1 =>
    stepItem (loopState t0 proc k) k (t0.imageData.getD k ⟨"", none⟩) (proc k)

/-- Terminal status assignment after the loop exhausts all images
(batch_processor.py lines 153–160): `completed` iff `success_count > 0`,
else `failed`; `completed_at` stamped. -/
def finalizeTask (t : BatchTask) (now : Nat) : BatchTask :=
  { t with
    status := if t.successCount > 0 then .completed else .failed
    completedAt := some now }

/-- A full, uncancelled run of `_process_task` over all images. -/
def runToCompletion (t0 : BatchTask) (proc : Nat → ItemOutcome) (now : Nat) : BatchTask :=
  finalizeTask (loopState t0 proc t0.imageData.length) now

/-- The mutation `cancel_task` performs on a task it accepts
(batch_processor.py lines 280–281). -/
def cancelMark (t : BatchTask) (now : Nat) : BatchTask :=
  { t with status := .cancelled, completedAt := some now }

/-- `BatchProcessor.cancel_task` (batch_processor.py lines 270–282) acting on
the task table `self.tasks`: returns the boolean result and the new table. -/
def cancelTask (tbl : List (String × BatchTask)) (taskId : String)
    (uid : Nat) (now : Nat) : Bool × List (String × BatchTask) :=
  match tbl.lookup taskId with
  | none => (false, tbl)
  | some t =>
    if t.userId ≠ uid then (false, tbl)
    else if t.status = .completed ∨ t.status = .failed then (false, tbl)
    else (true, tbl.map (fun p => if p.1 = taskId then (p.1, cancelMark t now) else p))

/-- The summary dictionary copied out by `get_task_status` under the lock
(batch_processor.py lines 242–252). -/
structure StatusSummary where
  status : BStatus
  totalImages : Nat
  processedImages : Nat
  successCount : Nat
  failedCount : Nat
  progress : ℚ
  createdAt : Nat
  completedAt : Option Nat
deriving DecidableEq

/-- Field copy performed by `get_task_status` for a found task. -/
def taskSummary (t : BatchTask) : StatusSummary :=
  { status := t.status
    totalImages := t.totalImages
    processedImages := t.processedImages
    successCount := t.successCount
    failedCount := t.failedCount
    progress := t.progress
    createdAt := t.createdAt
    completedAt := t.completedAt }

/-- `BatchProcessor.get_task_status` (batch_processor.py lines 235–252):
`None` when the id is absent from the table. -/
def getTaskStatus (tbl : List (String × BatchTask)) (taskId : String) :
    Option StatusSummary :=
  (tbl.lookup taskId).map taskSummary

/-- The dictionary copied out by `get_task_results`
(batch_processor.py lines 261–268). -/
structure ResultsSummary where
  status : BStatus
  results : List ResultEntry
  errors : List ErrorEntry
  successCount : Nat
  failedCount : Nat
deriving DecidableEq

/-- `BatchProcessor.get_task_results` (batch_processor.py lines 254–268). -/
def getTaskResults (tbl : List (String × BatchTask)) (taskId : String) :
    Option ResultsSummary :=
  (tbl.lookup taskId).map (fun t =>
    { status := t.status
      results := t.results
      errors := t.errors
      successCount := t.successCount
      failedCount := t.failedCount })

/-- The zip entries written by `generate_download_package`
(batch_processor.py lines 297–302): for each result entry that is successful
and whose `output` is truthy (present and non-empty), one archive member
`f"{filename}_{i}.jpg"` per output variant.  The archive is modelled by its
list of (member name, member data) pairs. -/
def zipEntries (results : List ResultEntry) : List (String × String) :=
  results.foldl
    (fun acc r =>
      if r.success && !(r.output.getD []).isEmpty then
        acc ++ (r.output.getD []).enum.map
          (fun p => (r.filename ++ "_" ++ toString p.1 ++ ".jpg", p.2))
      else acc)
    []

/-- `BatchProcessor.generate_download_package` (batch_processor.py
lines 284–309): fetches the task via `get_task_results` and returns `None`
unless the status is `completed`; otherwise the assembled archive. -/
def generateDownloadPackage (tbl : List (String × BatchTask)) (taskId : String) :
    Option (List (String × String)) :=
  match getTaskResults tbl taskId with
  | none => none
  | some tr =>
    if tr.status ≠ .completed then none
    else some (zipEntries tr.results)

/-- `BatchProcessor._estimate_time` (batch_processor.py lines 316–323):
`int(image_count * 10 * len(operations) * 0.8)`.  Since
`image_count * 10 * len(operations)` is a multiple of 10, the float product
rounds to the exact integer and truncation yields exactly `n * 4 / 5`. -/
def estimateTime (imageCount : Nat) (operations : List String) : Nat :=
  imageCount * 10 * operations.length * 4 / 5

/-- The operation names accepted by the `create_batch_task` endpoint
(batch.py line 85). -/
def validOperations : List String := ["text_removal", "background_replacement"]

/-- Outcome of the `create_batch_task` endpoint: an HTTP 400 validation
rejection, or the `BatchCreateResponse` fields taken from
`batch_processor.create_task`'s return value (batch_processor.py
lines 77–82). -/
inductive CreateOutcome
  | validationError (detail : String)
  | created (taskId : String) (status : BStatus) (totalImages : Nat)
      (estimatedTime : Nat)
deriving DecidableEq

/-- `create_batch_task` (batch.py lines 64–113) composed with
`BatchProcessor.create_task` (batch_processor.py lines 35–82): validates the
image count and the operation names in order, and on success stores a fresh
pending task under the fresh id `taskId` and answers with the estimate.
Returns the response and the resulting task table. -/
def createBatchTask (tbl : List (String × BatchTask)) (uid : Nat)
    (imgs : List ImageItem) (ops : List String) (sid : String)
    (taskId : String) (now : Nat) : CreateOutcome × List (String × BatchTask) :=
  if 50 < imgs.length then
    (.validationError "单次批量处理最多支持50张图片", tbl)
  else if imgs.length < 1 then
    (.validationError "至少需要上传1张图片", tbl)
  else
    match ops.find? (fun op => !validOperations.contains op) with
    | some op => (.validationError ("不支持的操作类型: " ++ op), tbl)
    | none =>
      (.created taskId .pending imgs.length (estimateTime imgs.length ops),
       tbl ++ [(taskId, initTask uid imgs ops sid now)])

/-- The per-item outcome of one background-loop iteration expressed through
`_decode_image` and `_process_single_image` (batch_processor.py
lines 115–122): a decoding exception reaches the per-item `except` branch,
otherwise `_process_single_image` never raises and its dictionary is used. -/
def itemOutcome (ops : List String) (decode : Except String Unit)
    (env : Nat → StageEnv) : ItemOutcome :=
  match decode with
  | .error m => .exn m
  | .ok _ => .ok (processSingleImage ops env)

/-! ### ModelScope client poll loop (`modelscope_client.py`) -/

/-- The JSON body returned by `_get_task_status` as far as
`_wait_for_result` reads it: `task_status`, `output_images`, `task_msg`. -/
structure StatusData where
  taskStatus : Option String
  outputImages : List String
  taskMsg : Option String
deriving DecidableEq

/-- `ModelScopeClient.POLL_INTERVAL` (modelscope_client.py line 33). -/
def POLL_INTERVAL : Nat := 5

/-- Default `max_wait` of `_wait_for_result` (modelscope_client.py line 135). -/
def DEFAULT_MAX_WAIT : Nat := 600

/-- Outcome of `_wait_for_result`: the success dictionary, the
`RuntimeError` raised on provider status `FAILED`, or the distinct
`TimeoutError`. -/
inductive WaitResult
  | succeeded (outputs : List String) (elapsed : Nat)
  | providerFailed (msg : String)
  | timedOut
deriving DecidableEq

/-- `task_status = status_data.get("task_status", TaskStatus.PROCESSING.value)`
(modelscope_client.py line 154). -/
def tsOf (sd : StatusData) : String := sd.taskStatus.getD "PROCESSING"

/-- The `while True` loop of `_wait_for_result` (modelscope_client.py
lines 148–169), idealised to poll at elapsed times `0, 5, 10, …` (the HTTP
round-trip time is not modelled): at each iteration, first the timeout guard
`elapsed > max_wait`, then the poll of `statusAt elapsed`; `fuel` is a
structural-recursion bound that is never exhausted when
`fuel > maxWait / POLL_INTERVAL`. -/
def waitFrom (statusAt : Nat → StatusData) (maxWait : Nat) :
    Nat → Nat → WaitResult
  | 0, _ => .timedOut
  | fuel + 1, elapsed =>
    if maxWait < elapsed then .timedOut
    else
      let sd := statusAt elapsed
      if tsOf sd = "SUCCEED" then .succeeded sd.outputImages elapsed
      else if tsOf sd = "FAILED" then .providerFailed (sd.taskMsg.getD "Unknown error")
      else waitFrom statusAt maxWait fuel (elapsed + POLL_INTERVAL)

/-- `ModelScopeClient._wait_for_result(task_id, max_wait)` with the provider's
status responses given by the oracle `statusAt` (status observed at a given
elapsed time). -/
def waitForResult (statusAt : Nat → StatusData) (maxWait : Nat) : WaitResult :=
  waitFrom statusAt maxWait (maxWait / POLL_INTERVAL + 2) 0

/-! ### Processing-job status updates (`image_service.py`) -/

/-- The mutable columns of a `ProcessingJob` row touched by
`update_processing_job_status`.  `status` is the raw string column
(`ProcessingStatus` values are "pending", "processing", "completed",
"failed"); `result_urls` is stored JSON-encoded and modelled as the list. -/
structure ProcessingJob where
  status : String
  progress : Nat
  resultPath : Option String
  resultUrls : Option (List String)
  errorMessage : Option String
  startedAt : Option Nat
  completedAt : Option Nat
deriving DecidableEq

/-- The unconditional field assignments of `update_processing_job_status`
(image_service.py lines 181–193): `job.status = status`, then each optional
argument that is not `None` overwrites its column. -/
def applyFields (job : ProcessingJob) (st : String) (pr : Option Nat)
    (rp : Option String) (ru : Option (List String)) (em : Option String) :
    ProcessingJob :=
  let j := { job with status := st }
  let j := match pr with | some p => { j with progress := p } | none => j
  let j := match rp with | some p => { j with resultPath := some p } | none => j
  let j := match ru with | some u => { j with resultUrls := some u } | none => j
  match em with | some m => { j with errorMessage := some m } | none => j

/-- The timestamp block of `update_processing_job_status` (image_service.py
lines 195–199): `started_at` is set only when the requested status is
`processing` and it is still unset; the `elif` stamps `completed_at` on
`completed`/`failed`. -/
def applyTimestamps (j : ProcessingJob) (st : String) (now : Nat) : ProcessingJob :=
  if st = "processing" ∧ j.startedAt = none then { j with startedAt := some now }
  else if st = "completed" ∨ st = "failed" then { j with completedAt := some now }
  else j

/-- `ImageService.update_processing_job_status` (image_service.py
lines 163–224) restricted to the job row (the follow-up `Image` row update of
lines 203–222 does not touch the job): `False` when the job id is unknown,
otherwise the mutated row and `True`. -/
def updateProcessingJobStatus (j : Option ProcessingJob) (st : String)
    (pr : Option Nat) (rp : Option String) (ru : Option (List String))
    (em : Option String) (now : Nat) : Bool × Option ProcessingJob :=
  match j with
  | none => (false, none)
  | some job => (true, some (applyTimestamps (applyFields job st pr rp ru em) st now))

/-! ### Derived notions used by the statements -/

/-- The §3/§8 counting invariant of a batch task record. -/
def countsInvariant (t : BatchTask) : Prop :=
  t.processedImages = t.successCount + t.failedCount ∧
  t.processedImages ≤ t.totalImages

/-- First exception raised along the operation chain of
`_process_single_image`, if any. -/
def chainError (env : Nat → StageEnv) : List String → Nat → Option String
  | [], _ => none
  | op :: rest, k =>
    match stageRun op (env k) with
    | .error m => some m
    | .ok _ => chainError env rest (k + 1)

/-- Concatenated images of the successful stages of the chain (stages whose
result dict is unsuccessful contribute nothing). -/
def successOutputs (env : Nat → StageEnv) : List String → Nat → List String
  | [], _ => []
  | op :: rest, k =>
    (match stageRun op (env k) with
     | .ok (.success imgs) => imgs
     | _ => []) ++ successOutputs env rest (k + 1)

/-! ### Concrete fixtures used by counterexamples and witnesses -/

/-- Stage oracle: OCR finds no text (so `text_removal` succeeds with the
original image), segmentation succeeds. -/
def envTextOk : StageEnv :=
  { ocrDetect := .ok (true, false)
    inpaint := .ok (.failure "unused")
    segment := .ok true
    generateBackground := .ok ()
    originalEncoded := "orig"
    compositeEncoded := "comp" }

/-- Stage oracle: segmentation reports failure. -/
def envSegFail : StageEnv :=
  { envTextOk with segment := .ok false }

/-- Per-stage oracle: first stage sees `envTextOk`, later ones `envSegFail`. -/
def envPair : Nat → StageEnv := fun i => if i = 0 then envTextOk else envSegFail

/-- Two submitted images. -/
def imgsW : List ImageItem := [⟨"a", some "f0.png"⟩, ⟨"b", none⟩]

/-- Item outcomes: image 0 raises a decoding exception, image 1 succeeds. -/
def procW : Nat → ItemOutcome := fun i =>
  if i = 0 then .exn "decode failed"
  else .ok { success := true, output := some ["u"], error := none }

/-- A task of user 7 already in the `cancelled` state. -/
def tCancelled : BatchTask :=
  { initTask 7 imgsW ["text_removal"] "minimal_white" 0 with status := .cancelled }

/-- Task table holding only `tCancelled` under id `"t1"`. -/
def tblCancelled : List (String × BatchTask) := [("t1", tCancelled)]

/-- A task of user 7 already in the `failed` state. -/
def tFailed : BatchTask :=
  { initTask 7 imgsW ["text_removal"] "minimal_white" 0 with status := .failed }

/-- Task table holding only `tFailed` under id `"t1"`. -/
def tblFailed : List (String × BatchTask) := [("t1", tFailed)]

/-- Task table holding one freshly created (pending) task of user 7. -/
def tblPending : List (String × BatchTask) :=
  [("t1", initTask 7 imgsW ["text_removal"] "minimal_white" 0)]

/-- Provider status oracle: `SUCCEED` at elapsed time 10, non-terminal before. -/
def statusOracle : Nat → StatusData := fun e =>
  if e = 10 then ⟨some "SUCCEED", ["img.png"], none⟩ else ⟨none, [], none⟩

/-- A processing job row already in the terminal `completed` state. -/
def jobC : ProcessingJob :=
  { status := "completed", progress := 100, resultPath := none, resultUrls := none
    errorMessage := none, startedAt := some 1, completedAt := some 2 }

/-! ### Helper lemmas about the background loop -/

theorem stepItem_totalImages (t : BatchTask) (i : Nat) (it : ImageItem)
    (o : ItemOutcome) : (stepItem t i it o).totalImages = t.totalImages := by
  cases o <;> rfl

theorem stepItem_processedImages (t : BatchTask) (i : Nat) (it : ImageItem)
    (o : ItemOutcome) :
    (stepItem t i it o).processedImages = t.processedImages + 1 := by
  cases o <;> rfl

theorem stepItem_counts_sum (t : BatchTask) (i : Nat) (it : ImageItem)
    (o : ItemOutcome) :
    (stepItem t i it o).successCount + (stepItem t i it o).failedCount
      = t.successCount + t.failedCount + 1 := by
  cases o with
  | ok r => cases hr : r.success <;> simp [stepItem, hr] <;> omega
  | exn m => simp [stepItem]; omega

theorem loopState_totalImages (t0 : BatchTask) (proc : Nat → ItemOutcome) :
    ∀ k, (loopState t0 proc k).totalImages = t0.totalImages := by
  intro k
  induction k with
  | zero => rfl
  | succ k ih => rw [loopState, stepItem_totalImages, ih]

theorem loopState_processedImages (t0 : BatchTask) (proc : Nat → ItemOutcome) :
    ∀ k, (loopState t0 proc k).processedImages = t0.processedImages + k := by
  intro k
  induction k with
  | zero => rfl
  | succ k ih => rw [loopState, stepItem_processedImages, ih]; omega

theorem loopState_counts_sum (t0 : BatchTask) (proc : Nat → ItemOutcome) :
    ∀ k, (loopState t0 proc k).successCount + (loopState t0 proc k).failedCount
      = t0.successCount + t0.failedCount + k := by
  intro k
  induction k with
  | zero => rfl
  | succ k ih => rw [loopState, stepItem_counts_sum, ih]; omega

theorem finalizeTask_counts (t : BatchTask) (now : Nat) :
    (finalizeTask t now).processedImages = t.processedImages ∧
    (finalizeTask t now).successCount = t.successCount ∧
    (finalizeTask t now).failedCount = t.failedCount ∧
    (finalizeTask t now).totalImages = t.totalImages :=
  ⟨rfl, rfl, rfl, rfl⟩

theorem cancelMark_counts (t : BatchTask) (now : Nat) :
    (cancelMark t now).processedImages = t.processedImages ∧
    (cancelMark t now).successCount = t.successCount ∧
    (cancelMark t now).failedCount = t.failedCount ∧
    (cancelMark t now).totalImages = t.totalImages :=
  ⟨rfl, rfl, rfl, rfl⟩

/-! ### Claim theorems -/

/-- C1: for every batch task, at every lock-protected observation point —
after creation, after the loop has handled any `k ≤ totalImages` items
(covering both the normal per-item branch and the per-item exception branch
of `stepItem`), after finalisation, and after a cancellation mark —
`processed_images = success_count + failed_count` and
`processed_images ≤ total_images`. -/
theorem batch_counts_invariant (uid : Nat) (imgs : List ImageItem)
    (ops : List String) (sid : String) (c fn cn k : Nat)
    (proc : Nat → ItemOutcome) (hk : k ≤ imgs.length) :
    countsInvariant (initTask uid imgs ops sid c) ∧
    countsInvariant (loopState (initTask uid imgs ops sid c) proc k) ∧
    countsInvariant (finalizeTask (loopState (initTask uid imgs ops sid c) proc k) fn) ∧
    countsInvariant (cancelMark (loopState (initTask uid imgs ops sid c) proc k) cn) := by
  have h0 : countsInvariant (initTask uid imgs ops sid c) := by
    constructor <;> simp [initTask, countsInvariant]
  have hTot := loopState_totalImages (initTask uid imgs ops sid c) proc k
  have hPro := loopState_processedImages (initTask uid imgs ops sid c) proc k
  have hSum := loopState_counts_sum (initTask uid imgs ops sid c) proc k
  have hL : countsInvariant (loopState (initTask uid imgs ops sid c) proc k) := by
    constructor
    · rw [hPro, hSum]; simp [initTask]
    · rw [hPro, hTot]; simp [initTask]; exact hk
  refine ⟨h0, hL, ?_, ?_⟩
  · obtain ⟨hp, hs, hf, ht⟩ :=
      finalizeTask_counts (loopState (initTask uid imgs ops sid c) proc k) fn
    exact ⟨by rw [hp, hs, hf]; exact hL.1, by rw [hp, ht]; exact hL.2⟩
  · obtain ⟨hp, hs, hf, ht⟩ :=
      cancelMark_counts (loopState (initTask uid imgs ops sid c) proc k) cn
    exact ⟨by rw [hp, hs, hf]; exact hL.1, by rw [hp, ht]; exact hL.2⟩

/-- Witness for C1 at a concrete one-image batch processed one step. -/
theorem batch_counts_invariant_witness :
    1 ≤ ([⟨"a", none⟩] : List ImageItem).length ∧
    countsInvariant (loopState
      (initTask 1 [⟨"a", none⟩] ["text_removal"] "minimal_white" 0)
      (fun _ => .ok { success := true, output := some ["u"], error := none }) 1) :=
  ⟨by decide,
   (batch_counts_invariant 1 [⟨"a", none⟩] ["text_removal"] "minimal_white" 0 3 4 1
     (fun _ => .ok { success := true, output := some ["u"], error := none })
     (by decide)).2.1⟩

/-- C2: a batch whose background loop runs over all images without
cancellation ends `completed` iff all images were processed and at least one
succeeded, and `failed` iff all images were processed and none succeeded. -/
theorem batch_terminal_status (uid : Nat) (imgs : List ImageItem)
    (ops : List String) (sid : String) (c fn : Nat) (proc : Nat → ItemOutcome) :
    ((runToCompletion (initTask uid imgs ops sid c) proc fn).status = .completed ↔
      (runToCompletion (initTask uid imgs ops sid c) proc fn).processedImages
          = (runToCompletion (initTask uid imgs ops sid c) proc fn).totalImages ∧
        0 < (runToCompletion (initTask uid imgs ops sid c) proc fn).successCount) ∧
    ((runToCompletion (initTask uid imgs ops sid c) proc fn).status = .failed ↔
      (runToCompletion (initTask uid imgs ops sid c) proc fn).processedImages
          = (runToCompletion (initTask uid imgs ops sid c) proc fn).totalImages ∧
        (runToCompletion (initTask uid imgs ops sid c) proc fn).successCount = 0) := by
  set t0 := initTask uid imgs ops sid c with ht0
  have hlen : t0.imageData.length = imgs.length := by rw [ht0]; rfl
  have hPro := loopState_processedImages t0 proc t0.imageData.length
  have hTot := loopState_totalImages t0 proc t0.imageData.length
  have hEq : (runToCompletion t0 proc fn).processedImages
      = (runToCompletion t0 proc fn).totalImages := by
    show (finalizeTask (loopState t0 proc t0.imageData.length) fn).processedImages
      = (finalizeTask (loopState t0 proc t0.imageData.length) fn).totalImages
    rw [(finalizeTask_counts _ fn).1, (finalizeTask_counts _ fn).2.2.2, hPro, hTot,
      hlen, ht0]
    simp [initTask]
  have hSucc : (runToCompletion t0 proc fn).successCount
      = (loopState t0 proc t0.imageData.length).successCount :=
    (finalizeTask_counts _ fn).2.1
  have hStat : (runToCompletion t0 proc fn).status =
      (if 0 < (loopState t0 proc t0.imageData.length).successCount
        then BStatus.completed else BStatus.failed) := rfl
  by_cases hpos : 0 < (loopState t0 proc t0.imageData.length).successCount
  · rw [hStat, if_pos hpos]
    refine ⟨⟨fun _ => ⟨hEq, ?_⟩, fun _ => rfl⟩, ⟨fun h => ?_, fun h => ?_⟩⟩
    · rw [hSucc]; exact hpos
    · exact absurd h (by decide)
    · rw [hSucc] at h; omega
  · rw [hStat, if_neg hpos]
    refine ⟨⟨fun h => ?_, fun h => ?_⟩, ⟨fun _ => ⟨hEq, ?_⟩, fun _ => rfl⟩⟩
    · exact absurd h (by decide)
    · rw [hSucc] at h; omega
    · rw [hSucc]; omega

/-! ### Per-item operation chain (C3) -/

theorem processStages_characterization (env : Nat → StageEnv) :
    ∀ (ops : List String) (k : Nat) (acc : List String),
      processStages env ops k acc =
        (match chainError env ops k with
         | some m => .error m
         | none => .ok (acc ++ successOutputs env ops k)) := by
  intro ops
  induction ops with
  | nil => intro k acc; simp [processStages, chainError, successOutputs]
  | cons op rest ih =>
    intro k acc
    cases hs : stageRun op (env k) with
    | error m => simp [processStages, chainError, hs]
    | ok r =>
      cases r with
      | success imgs =>
        simp [processStages, chainError, successOutputs, hs, ih, List.append_assoc]
      | failure e =>
        simp [processStages, chainError, successOutputs, hs, ih]

/-- C3 counterexample: with `operations = ["text_removal",
"background_replacement"]`, the first stage succeeds (no text detected, the
original image is returned) and the second stage fails (segmentation
failure), yet the item is marked successful and keeps the first stage's
output — the chain is not fail-fast and the stage error is discarded. -/
theorem item_chain_counterexample :
    processSingleImage ["text_removal", "background_replacement"] envPair
        = { success := true, output := some ["orig"], error := none } ∧
    stageRun "background_replacement" (envPair 1) = .ok (.failure "分割失败") := by
  constructor <;> rfl

/-- C3 amended: an item is marked failed carrying a stage error exactly when
some stage raises an exception (then earlier outputs are discarded); a stage
whose result dict is unsuccessful is merely skipped — the item keeps every
successful stage's outputs, is successful iff those outputs are non-empty,
and records no stage error in the non-exception case. -/
theorem item_chain_amended (ops : List String) (env : Nat → StageEnv) :
    (∀ m, chainError env ops 0 = some m →
      processSingleImage ops env
        = { success := false, output := none, error := some m }) ∧
    (chainError env ops 0 = none →
      processSingleImage ops env
        = { success := !(successOutputs env ops 0).isEmpty
            output := some (successOutputs env ops 0)
            error := none }) := by
  constructor
  · intro m hm
    unfold processSingleImage
    rw [processStages_characterization, hm]
  · intro h
    unfold processSingleImage
    rw [processStages_characterization, h]
    simp

/-- Witness for C3's amended theorem at a concrete no-exception chain. -/
theorem item_chain_amended_witness :
    chainError (fun _ => envTextOk) ["text_removal"] 0 = none ∧
    processSingleImage ["text_removal"] (fun _ => envTextOk)
      = { success := !(successOutputs (fun _ => envTextOk) ["text_removal"] 0).isEmpty
          output := some (successOutputs (fun _ => envTextOk) ["text_removal"] 0)
          error := none } :=
  ⟨rfl, (item_chain_amended ["text_removal"] (fun _ => envTextOk)).2 rfl⟩

/-! ### Result-list ordering (C4) -/

theorem loopState_results_indices (t0 : BatchTask) (proc : Nat → ItemOutcome) :
    ∀ k, (loopState t0 proc k).results.map (fun r => r.index)
      = t0.results.map (fun r => r.index)
        ++ (List.range k).filter (fun i => !(proc i).isExn) := by
  intro k
  induction k with
  | zero => simp [loopState, startProcessing]
  | succ k ih =>
    rw [loopState]
    cases hp : proc k with
    | ok r =>
      simp [stepItem, ih, List.range_succ, List.filter_append, hp, ItemOutcome.isExn]
    | exn m =>
      simp [stepItem, ih, List.range_succ, List.filter_append, hp, ItemOutcome.isExn]

theorem loopState_errors_indices (t0 : BatchTask) (proc : Nat → ItemOutcome) :
    ∀ k, (loopState t0 proc k).errors.map (fun e => e.index)
      = t0.errors.map (fun e => e.index)
        ++ (List.range k).filter (fun i => (proc i).isExn) := by
  intro k
  induction k with
  | zero => simp [loopState, startProcessing]
  | succ k ih =>
    rw [loopState]
    cases hp : proc k with
    | ok r =>
      simp [stepItem, ih, List.range_succ, List.filter_append, hp, ItemOutcome.isExn]
    | exn m =>
      simp [stepItem, ih, List.range_succ, List.filter_append, hp, ItemOutcome.isExn]

/-- C4 counterexample: in a two-image batch whose first item raises an
exception and whose second succeeds, `results` has a single entry, carrying
index 1 — so `results[0]` corresponds to the second submitted image, and the
first image contributes no entry to `results` (it lands in `errors`). -/
theorem results_order_counterexample :
    (loopState (initTask 7 imgsW ["text_removal"] "minimal_white" 0) procW 2).results.map
        (fun r => r.index) = [1] ∧
    (initTask 7 imgsW ["text_removal"] "minimal_white" 0).totalImages = 2 ∧
    (loopState (initTask 7 imgsW ["text_removal"] "minimal_white" 0) procW 2).errors.map
        (fun e => e.index) = [0] := by
  refine ⟨?_, rfl, ?_⟩ <;> rfl

/-- C4 amended: `results` holds, in submission order, exactly the items whose
processing did not raise an exception, each entry carrying its submission
index; exception items are recorded (with their index) in `errors` instead;
when no item raises, the i-th entry of `results` corresponds to the i-th
submitted image for all i. -/
theorem results_order_amended (uid : Nat) (imgs : List ImageItem)
    (ops : List String) (sid : String) (c : Nat) (proc : Nat → ItemOutcome)
    (k : Nat) (_hk : k ≤ imgs.length) :
    ((loopState (initTask uid imgs ops sid c) proc k).results.map (fun r => r.index)
        = (List.range k).filter (fun i => !(proc i).isExn)) ∧
    ((loopState (initTask uid imgs ops sid c) proc k).errors.map (fun e => e.index)
        = (List.range k).filter (fun i => (proc i).isExn)) ∧
    ((∀ i, i < k → (proc i).isExn = false) →
      (loopState (initTask uid imgs ops sid c) proc k).results.map (fun r => r.index)
        = List.range k) := by
  have h1 := loopState_results_indices (initTask uid imgs ops sid c) proc k
  have h2 := loopState_errors_indices (initTask uid imgs ops sid c) proc k
  rw [show (initTask uid imgs ops sid c).results = [] from rfl] at h1
  rw [show (initTask uid imgs ops sid c).errors = [] from rfl] at h2
  simp only [List.map_nil, List.nil_append] at h1 h2
  refine ⟨h1, h2, fun hall => ?_⟩
  rw [h1, List.filter_eq_self]
  intro i hi
  simp [hall i (List.mem_range.mp hi)]

/-- Witness for C4's amended theorem on the concrete two-image batch. -/
theorem results_order_amended_witness :
    2 ≤ imgsW.length ∧
    (loopState (initTask 7 imgsW ["text_removal"] "minimal_white" 0) procW 2).errors.map
        (fun e => e.index) = (List.range 2).filter (fun i => (procW i).isExn) :=
  ⟨by decide,
   (results_order_amended 7 imgsW ["text_removal"] "minimal_white" 0 procW 2
     (by decide)).2.1⟩

/-! ### Cancellation (C5) -/

theorem lookup_map_update (id : String) (v : BatchTask) :
    ∀ (tbl : List (String × BatchTask)) (t : BatchTask), tbl.lookup id = some t →
      (tbl.map (fun p => if p.1 = id then (p.1, v) else p)).lookup id = some v := by
  intro tbl
  induction tbl with
  | nil => intro t h; cases h
  | cons hd rest ih =>
    obtain ⟨k, b⟩ := hd
    intro t h
    by_cases hk : k = id
    · subst hk
      rw [List.map_cons, if_pos rfl]
      simp [List.lookup]
    · rw [List.map_cons, if_neg hk]
      have hf : (id == k) = false := by
        rw [beq_eq_false_iff_ne]
        exact fun hh => hk hh.symm
      simp only [List.lookup, hf] at h ⊢
      exact ih t h

/-- C5 counterexample: a task already `cancelled` (a terminal state per the
spec) owned by the caller is accepted again by `cancel_task` — the call
returns `true` instead of the claimed `false`, because the code only treats
`completed` and `failed` as blocking states. -/
theorem cancel_cancelled_counterexample :
    tCancelled.status = .cancelled ∧
    (cancelTask tblCancelled "t1" 7 5).1 = true := by
  constructor <;> rfl

/-- C5 amended: `cancel_task` returns `false` exactly when the task is
missing, owned by another user, or already `completed` or `failed`; a task in
any other state — including one already `cancelled` — is (re)marked
`cancelled` and the call returns `true`. -/
theorem cancel_task_amended (tbl : List (String × BatchTask)) (id : String)
    (uid now : Nat) :
    ((cancelTask tbl id uid now).1 = true ↔
      ∃ t, tbl.lookup id = some t ∧ t.userId = uid ∧
        t.status ≠ .completed ∧ t.status ≠ .failed) ∧
    (∀ t, tbl.lookup id = some t → t.userId = uid →
      t.status ≠ .completed → t.status ≠ .failed →
      ((cancelTask tbl id uid now).2.lookup id = some (cancelMark t now) ∧
        (cancelMark t now).status = .cancelled)) ∧
    ((cancelTask tbl id uid now).1 = false → (cancelTask tbl id uid now).2 = tbl) := by
  cases hl : tbl.lookup id with
  | none =>
    have hc : cancelTask tbl id uid now = (false, tbl) := by
      simp only [cancelTask, hl]
    refine ⟨?_, ?_, fun _ => by rw [hc]⟩
    · rw [hc]
      refine ⟨fun h => by simp at h, ?_⟩
      rintro ⟨t, ht, -⟩
      cases ht
    · intro t ht
      cases ht
  | some t =>
    by_cases hu : t.userId = uid
    · by_cases hs : t.status = .completed ∨ t.status = .failed
      · have hc : cancelTask tbl id uid now = (false, tbl) := by
          simp only [cancelTask, hl]
          rw [if_neg (not_not_intro hu), if_pos hs]
        refine ⟨?_, ?_, fun _ => by rw [hc]⟩
        · rw [hc]
          refine ⟨fun h => by simp at h, ?_⟩
          rintro ⟨t', ht', -, hc1, hc2⟩
          injection ht' with he
          subst he
          rcases hs with h | h
          · exact absurd h hc1
          · exact absurd h hc2
        · intro t' ht' _ hc1 hc2
          injection ht' with he
          subst he
          rcases hs with h | h
          · exact absurd h hc1
          · exact absurd h hc2
      · push_neg at hs
        have hc : cancelTask tbl id uid now =
            (true, tbl.map (fun p => if p.1 = id then (p.1, cancelMark t now) else p)) := by
          simp only [cancelTask, hl]
          rw [if_neg (not_not_intro hu), if_neg (fun x => x.elim hs.1 hs.2)]
        refine ⟨?_, ?_, ?_⟩
        · rw [hc]
          exact ⟨fun _ => ⟨t, rfl, hu, hs.1, hs.2⟩, fun _ => rfl⟩
        · intro t' ht' _ _ _
          injection ht' with he
          subst he
          rw [hc]
          exact ⟨lookup_map_update _ _ tbl _ hl, rfl⟩
        · intro h
          rw [hc] at h
          simp at h
    · have hc : cancelTask tbl id uid now = (false, tbl) := by
        simp only [cancelTask, hl]
        rw [if_pos hu]
      refine ⟨?_, ?_, fun _ => by rw [hc]⟩
      · rw [hc]
        refine ⟨fun h => by simp at h, ?_⟩
        rintro ⟨t', ht', hu', -⟩
        injection ht' with he
        subst he
        exact absurd hu' hu
      · intro t' ht' hu' _ _
        injection ht' with he
        subst he
        exact absurd hu' hu

/-- Witness for C5's amended theorem: a live (pending) task is cancelled. -/
theorem cancel_task_amended_witness :
    (cancelTask tblPending "t1" 7 5).2.lookup "t1"
        = some (cancelMark (initTask 7 imgsW ["text_removal"] "minimal_white" 0) 5) ∧
    (cancelMark (initTask 7 imgsW ["text_removal"] "minimal_white" 0) 5).status
        = .cancelled :=
  (cancel_task_amended tblPending "t1" 7 5).2.1
    (initTask 7 imgsW ["text_removal"] "minimal_white" 0)
    rfl rfl (by decide) (by decide)

/-! ### Download packaging (C6) -/

/-- C6: `generate_download_package` produces an archive only for a batch in
the `completed` state; for a missing task or any other status — including
`failed` and `cancelled`, even when some individual items succeeded — it
returns `None`. -/
theorem download_requires_completed (tbl : List (String × BatchTask)) (id : String) :
    (∀ a, generateDownloadPackage tbl id = some a →
      ∃ t, tbl.lookup id = some t ∧ t.status = .completed) ∧
    (∀ t, tbl.lookup id = some t → t.status ≠ .completed →
      generateDownloadPackage tbl id = none) ∧
    (tbl.lookup id = none → generateDownloadPackage tbl id = none) := by
  cases hl : tbl.lookup id with
  | none =>
    refine ⟨?_, ?_, fun _ => ?_⟩
    · intro a ha
      simp [generateDownloadPackage, getTaskResults, hl] at ha
    · intro t ht
      cases ht
    · simp [generateDownloadPackage, getTaskResults, hl]
  | some t =>
    by_cases hs : t.status = .completed
    · refine ⟨fun a _ => ⟨t, rfl, hs⟩, ?_, fun h => ?_⟩
      · intro t' ht' hne
        injection ht' with he
        subst he
        exact absurd hs hne
      · cases h
    · have hnone : generateDownloadPackage tbl id = none := by
        simp [generateDownloadPackage, getTaskResults, hl, hs]
      refine ⟨?_, fun t' ht' _ => hnone, fun h => hnone⟩
      intro a ha
      rw [hnone] at ha
      cases ha

/-- Witness for C6 at a concrete `failed` task. -/
theorem download_requires_completed_witness :
    generateDownloadPackage tblFailed "t1" = none :=
  (download_requires_completed tblFailed "t1").2.1 tFailed rfl (by decide)

/-! ### ModelScope poll loop (C7) -/

theorem waitFrom_timeout (statusAt : Nat → StatusData) (maxWait : Nat) :
    ∀ (fuel e : Nat),
      (∀ j : Nat, e + POLL_INTERVAL * j ≤ maxWait →
        tsOf (statusAt (e + POLL_INTERVAL * j)) ≠ "SUCCEED" ∧
        tsOf (statusAt (e + POLL_INTERVAL * j)) ≠ "FAILED") →
      waitFrom statusAt maxWait fuel e = .timedOut := by
  intro fuel
  induction fuel with
  | zero => intro e _; rfl
  | succ fuel ih =>
    intro e h
    rw [waitFrom]
    by_cases he : maxWait < e
    · rw [if_pos he]
    · rw [if_neg he]
      have h0 := h 0 (by omega)
      rw [Nat.mul_zero, Nat.add_zero] at h0
      rw [if_neg h0.1, if_neg h0.2]
      apply ih
      intro j hj
      have hj' : e + POLL_INTERVAL * (j + 1) ≤ maxWait := by
        rw [Nat.mul_add, Nat.mul_one]
        omega
      have := h (j + 1) hj'
      rw [show e + POLL_INTERVAL * (j + 1) = e + POLL_INTERVAL + POLL_INTERVAL * j by
        rw [Nat.mul_add, Nat.mul_one]; omega] at this
      exact this

theorem waitFrom_shift (statusAt : Nat → StatusData) (maxWait : Nat) :
    ∀ (k fuel e : Nat), k < fuel →
      e + POLL_INTERVAL * k ≤ maxWait →
      (∀ j : Nat, j < k →
        tsOf (statusAt (e + POLL_INTERVAL * j)) ≠ "SUCCEED" ∧
        tsOf (statusAt (e + POLL_INTERVAL * j)) ≠ "FAILED") →
      waitFrom statusAt maxWait fuel e
        = waitFrom statusAt maxWait (fuel - k) (e + POLL_INTERVAL * k) := by
  intro k
  induction k with
  | zero =>
    intro fuel e _ _ _
    rw [Nat.mul_zero, Nat.add_zero, Nat.sub_zero]
  | succ k ih =>
    intro fuel e hf hle h
    cases fuel with
    | zero => omega
    | succ fuel =>
      have h0 := h 0 (by omega)
      rw [Nat.mul_zero, Nat.add_zero] at h0
      have hstep : waitFrom statusAt maxWait (fuel + 1) e
          = waitFrom statusAt maxWait fuel (e + POLL_INTERVAL) := by
        rw [waitFrom, if_neg (by rw [Nat.mul_add, Nat.mul_one] at hle; omega),
          if_neg h0.1, if_neg h0.2]
      rw [hstep]
      have harg : e + POLL_INTERVAL + POLL_INTERVAL * k = e + POLL_INTERVAL * (k + 1) := by
        rw [Nat.mul_add, Nat.mul_one]
        omega
      have := ih fuel (e + POLL_INTERVAL) (by omega) (by rw [harg]; exact hle)
        (fun j hj => by
          have := h (j + 1) (by omega)
          rw [show e + POLL_INTERVAL * (j + 1) = e + POLL_INTERVAL + POLL_INTERVAL * j by
            rw [Nat.mul_add, Nat.mul_one]; omega] at this
          exact this)
      rw [this, harg, Nat.succ_sub_succ]

/-- C7: `_wait_for_result` polls the provider status at elapsed times
`0, 5, 10, …` (`POLL_INTERVAL = 5`, default budget `600`) as long as
`elapsed ≤ max_wait`; it stops at the first poll whose status is `SUCCEED`
(returning the output references together with the elapsed time) or `FAILED`
(raising an error that carries `task_msg`); if no poll within the budget is
terminal, it raises the distinct timeout error. -/
theorem wait_for_result_spec (statusAt : Nat → StatusData) (maxWait : Nat) :
    ((∀ k : Nat, POLL_INTERVAL * k ≤ maxWait →
        tsOf (statusAt (POLL_INTERVAL * k)) ≠ "SUCCEED" ∧
        tsOf (statusAt (POLL_INTERVAL * k)) ≠ "FAILED") →
      waitForResult statusAt maxWait = .timedOut) ∧
    (∀ k : Nat, POLL_INTERVAL * k ≤ maxWait →
      (∀ j : Nat, j < k →
        tsOf (statusAt (POLL_INTERVAL * j)) ≠ "SUCCEED" ∧
        tsOf (statusAt (POLL_INTERVAL * j)) ≠ "FAILED") →
      ((tsOf (statusAt (POLL_INTERVAL * k)) = "SUCCEED" →
          waitForResult statusAt maxWait
            = .succeeded (statusAt (POLL_INTERVAL * k)).outputImages
                (POLL_INTERVAL * k)) ∧
        (tsOf (statusAt (POLL_INTERVAL * k)) = "FAILED" →
          waitForResult statusAt maxWait
            = .providerFailed
                ((statusAt (POLL_INTERVAL * k)).taskMsg.getD "Unknown error")))) ∧
    (POLL_INTERVAL = 5 ∧ DEFAULT_MAX_WAIT = 600 ∧
      ∀ (outs : List String) (e : Nat) (m : String),
        (WaitResult.succeeded outs e ≠ .providerFailed m) ∧
        (WaitResult.timedOut ≠ .providerFailed m) ∧
        (WaitResult.timedOut ≠ .succeeded outs e)) := by
  refine ⟨?_, ?_, rfl, rfl, fun outs e m => by
    refine ⟨?_, ?_, ?_⟩ <;> intro h <;> cases h⟩
  · intro h
    apply waitFrom_timeout
    intro j hj
    rw [Nat.zero_add] at hj ⊢
    exact h j hj
  · intro k hk hprev
    have h5 : POLL_INTERVAL = 5 := rfl
    have hkle : k ≤ maxWait / POLL_INTERVAL := by
      rw [h5] at hk ⊢
      omega
    have hfuel : k < maxWait / POLL_INTERVAL + 2 := by omega
    have hshift := waitFrom_shift statusAt maxWait k (maxWait / POLL_INTERVAL + 2) 0
      hfuel (by omega) (fun j hj => by
        rw [Nat.zero_add]
        exact hprev j hj)
    rw [Nat.zero_add] at hshift
    have hrem : maxWait / POLL_INTERVAL + 2 - k
        = (maxWait / POLL_INTERVAL + 1 - k) + 1 := by omega
    constructor
    · intro hsuc
      rw [waitForResult, hshift, hrem, waitFrom, if_neg (by omega), if_pos hsuc]
    · intro hfail
      have hns : tsOf (statusAt (POLL_INTERVAL * k)) ≠ "SUCCEED" := by
        rw [hfail]
        decide
      rw [waitForResult, hshift, hrem, waitFrom, if_neg (by omega), if_neg hns,
        if_pos hfail]

/-- Witness for C7: a provider that turns `SUCCEED` at elapsed time 10. -/
theorem wait_for_result_spec_witness :
    waitForResult statusOracle 600 = .succeeded ["img.png"] 10 := by
  have h := ((wait_for_result_spec statusOracle 600).2.1 2 (by decide)
    (by decide)).1 (by decide)
  simpa using h

/-! ### Creation validation (C8) -/

/-- C8: `create_batch_task` rejects (with a validation error, leaving the
task table untouched, so `get_task_status` answers exactly as before) any
request with 0 or more than 50 images or an operation name outside
`{text_removal, background_replacement}`; otherwise it stores a fresh task in
the `pending` state and answers with the estimate
`int(imageCount * 10 * operationCount * 0.8) = 8 * imageCount * operationCount`. -/
theorem create_task_validation (tbl : List (String × BatchTask)) (uid : Nat)
    (imgs : List ImageItem) (ops : List String) (sid taskId : String) (now : Nat) :
    ((imgs.length = 0 ∨ 50 < imgs.length ∨ ∃ op ∈ ops, op ∉ validOperations) →
      ((∃ d, (createBatchTask tbl uid imgs ops sid taskId now).1
          = .validationError d) ∧
        (createBatchTask tbl uid imgs ops sid taskId now).2 = tbl ∧
        ∀ id2, getTaskStatus (createBatchTask tbl uid imgs ops sid taskId now).2 id2
          = getTaskStatus tbl id2)) ∧
    (1 ≤ imgs.length → imgs.length ≤ 50 → (∀ op ∈ ops, op ∈ validOperations) →
      ((createBatchTask tbl uid imgs ops sid taskId now).1
          = .created taskId .pending imgs.length (estimateTime imgs.length ops) ∧
        (createBatchTask tbl uid imgs ops sid taskId now).2
          = tbl ++ [(taskId, initTask uid imgs ops sid now)] ∧
        (initTask uid imgs ops sid now).status = .pending)) ∧
    estimateTime imgs.length ops = 8 * (imgs.length * ops.length) := by
  refine ⟨?_, ?_, ?_⟩
  · intro h
    by_cases h50 : 50 < imgs.length
    · have hc : createBatchTask tbl uid imgs ops sid taskId now
          = (.validationError "单次批量处理最多支持50张图片", tbl) := by
        simp only [createBatchTask]
        rw [if_pos h50]
      exact ⟨⟨_, by rw [hc]⟩, by rw [hc], fun id2 => by rw [hc]⟩
    · by_cases h1 : imgs.length < 1
      · have hc : createBatchTask tbl uid imgs ops sid taskId now
            = (.validationError "至少需要上传1张图片", tbl) := by
          simp only [createBatchTask]
          rw [if_neg h50, if_pos h1]
        exact ⟨⟨_, by rw [hc]⟩, by rw [hc], fun id2 => by rw [hc]⟩
      · rcases h with h0 | h50' | ⟨op, hop, hnv⟩
        · exact absurd h0 (by omega)
        · exact absurd h50' h50
        · have hfind : (ops.find? (fun o => !validOperations.contains o)).isSome := by
            rw [List.find?_isSome]
            exact ⟨op, hop, by simp [hnv]⟩
          obtain ⟨op', hop'⟩ := Option.isSome_iff_exists.mp hfind
          have hc : createBatchTask tbl uid imgs ops sid taskId now
              = (.validationError ("不支持的操作类型: " ++ op'), tbl) := by
            simp only [createBatchTask]
            rw [if_neg h50, if_neg h1, hop']
          exact ⟨⟨_, by rw [hc]⟩, by rw [hc], fun id2 => by rw [hc]⟩
  · intro hmin hmax hall
    have h50 : ¬ 50 < imgs.length := by omega
    have h1 : ¬ imgs.length < 1 := by omega
    have hfind : ops.find? (fun o => !validOperations.contains o) = none := by
      rw [List.find?_eq_none]
      intro op hop
      simp [hall op hop]
    have hc : createBatchTask tbl uid imgs ops sid taskId now
        = (.created taskId .pending imgs.length (estimateTime imgs.length ops),
           tbl ++ [(taskId, initTask uid imgs ops sid now)]) := by
      simp only [createBatchTask]
      rw [if_neg h50, if_neg h1, hfind]
    exact ⟨by rw [hc], by rw [hc], rfl⟩
  · rw [estimateTime,
      show imgs.length * 10 * ops.length * 4 = 5 * (8 * (imgs.length * ops.length))
        by ring]
    exact Nat.mul_div_cancel_left _ (by norm_num)

/-- Witness for C8: a valid one-image, one-operation request is created. -/
theorem create_task_validation_witness :
    1 ≤ ([⟨"x", none⟩] : List ImageItem).length ∧
    (createBatchTask [] 1 [⟨"x", none⟩] ["text_removal"] "minimal_white" "tid" 0).1
      = .created "tid" .pending 1 (estimateTime 1 ["text_removal"]) :=
  ⟨by decide,
   ((create_task_validation [] 1 [⟨"x", none⟩] ["text_removal"] "minimal_white"
      "tid" 0).2.1 (by decide) (by decide) (by decide)).1⟩

/-! ### Job status updates (C9) -/

theorem applyFields_status (job : ProcessingJob) (st : String) (pr : Option Nat)
    (rp : Option String) (ru : Option (List String)) (em : Option String) :
    (applyFields job st pr rp ru em).status = st := by
  cases pr <;> cases rp <;> cases ru <;> cases em <;> rfl

theorem applyFields_startedAt (job : ProcessingJob) (st : String) (pr : Option Nat)
    (rp : Option String) (ru : Option (List String)) (em : Option String) :
    (applyFields job st pr rp ru em).startedAt = job.startedAt := by
  cases pr <;> cases rp <;> cases ru <;> cases em <;> rfl

theorem applyTimestamps_status (j : ProcessingJob) (st : String) (now : Nat) :
    (applyTimestamps j st now).status = j.status := by
  unfold applyTimestamps
  split_ifs <;> rfl

theorem applyTimestamps_startedAt (j : ProcessingJob) (st : String) (now : Nat) :
    (applyTimestamps j st now).startedAt
      = if st = "processing" ∧ j.startedAt = none then some now else j.startedAt := by
  unfold applyTimestamps
  by_cases h1 : st = "processing" ∧ j.startedAt = none
  · rw [if_pos h1, if_pos h1]
  · rw [if_neg h1, if_neg h1]
    by_cases h2 : st = "completed" ∨ st = "failed"
    · rw [if_pos h2]
    · rw [if_neg h2]

/-- C9 counterexample: a job already in the terminal `completed` state is
moved back to `processing` by `update_processing_job_status` — the update is
applied unconditionally, so terminal states are not preserved. -/
theorem job_update_terminal_counterexample :
    jobC.status = "completed" ∧
    (updateProcessingJobStatus (some jobC) "processing" none none none none 5).2
      = some { jobC with status := "processing" } := by
  constructor <;> rfl

/-- C9 amended: `update_processing_job_status` sets the requested status
unconditionally (it can leave a terminal state); `started_at` is written at
most once — only an update to `processing` finding it unset assigns it, and
once set no later update changes it. -/
theorem job_update_amended (job : ProcessingJob) (st : String) (pr : Option Nat)
    (rp : Option String) (ru : Option (List String)) (em : Option String)
    (now : Nat) :
    (updateProcessingJobStatus none st pr rp ru em now = (false, none)) ∧
    (∃ j', updateProcessingJobStatus (some job) st pr rp ru em now = (true, some j') ∧
      j'.status = st ∧
      (job.startedAt ≠ none → j'.startedAt = job.startedAt) ∧
      (job.startedAt = none →
        j'.startedAt = (if st = "processing" then some now else none))) := by
  refine ⟨rfl,
    ⟨applyTimestamps (applyFields job st pr rp ru em) st now, rfl, ?_, ?_, ?_⟩⟩
  · rw [applyTimestamps_status, applyFields_status]
  · intro hne
    rw [applyTimestamps_startedAt, applyFields_startedAt,
      if_neg (fun hc => hne hc.2)]
  · intro hnone
    rw [applyTimestamps_startedAt, applyFields_startedAt, hnone]
    by_cases hst : st = "processing"
    · rw [if_pos ⟨hst, rfl⟩, if_pos hst]
    · rw [if_neg (fun hc => hst hc.1), if_neg hst]

/-- Witness for C9's amended theorem on the concrete completed job. -/
theorem job_update_amended_witness :
    ∃ j', updateProcessingJobStatus (some jobC) "completed" none none none none 9
        = (true, some j') ∧ j'.status = "completed" := by
  obtain ⟨j', hj, hst, -, -⟩ :=
    (job_update_amended jobC "completed" none none none none 9).2
  exact ⟨j', hj, hst⟩

/-! ### Empty operation list (C10) -/

theorem loopState_successCount_const (t0 : BatchTask) (proc : Nat → ItemOutcome)
    (hall : ∀ i r, proc i = .ok r → r.success = false) :
    ∀ k, (loopState t0 proc k).successCount = t0.successCount := by
  intro k
  induction k with
  | zero => rfl
  | succ k ih =>
    rw [loopState]
    cases hp : proc k with
    | ok r =>
      have hr := hall k r hp
      simp [stepItem, hr, ih]
    | exn m => simp [stepItem, ih]

theorem finalizeTask_status (t : BatchTask) (now : Nat) :
    (finalizeTask t now).status
      = if 0 < t.successCount then .completed else .failed := rfl

/-- C10: an empty operation list passes `create_batch_task` validation (the
membership loop is vacuous), a pending task is created; every item then
yields an unsuccessful result (an item succeeds only if some stage produced
output, and there are no stages), so the uncancelled run ends with status
`failed` and `success_count = 0`. -/
theorem empty_operations_batch (tbl : List (String × BatchTask)) (uid : Nat)
    (imgs : List ImageItem) (sid taskId : String) (c fn : Nat)
    (decode : Nat → Except String Unit) (env : Nat → Nat → StageEnv)
    (h1 : 1 ≤ imgs.length) (h2 : imgs.length ≤ 50) :
    ((createBatchTask tbl uid imgs [] sid taskId c).1
        = .created taskId .pending imgs.length (estimateTime imgs.length [])) ∧
    (∀ i r, itemOutcome [] (decode i) (env i) = .ok r → r.success = false) ∧
    ((runToCompletion (initTask uid imgs [] sid c)
        (fun i => itemOutcome [] (decode i) (env i)) fn).status = .failed) ∧
    ((runToCompletion (initTask uid imgs [] sid c)
        (fun i => itemOutcome [] (decode i) (env i)) fn).successCount = 0) := by
  have hitem : ∀ i r, itemOutcome [] (decode i) (env i) = .ok r → r.success = false := by
    intro i r h
    cases hd : decode i with
    | error m =>
      simp only [itemOutcome, hd] at h
      cases h
    | ok u =>
      simp only [itemOutcome, hd] at h
      injection h with he
      rw [← he]
      rfl
  have hsz := loopState_successCount_const (initTask uid imgs [] sid c)
    (fun i => itemOutcome [] (decode i) (env i)) hitem
    (initTask uid imgs [] sid c).imageData.length
  refine ⟨?_, hitem, ?_, ?_⟩
  · have hc : (createBatchTask tbl uid imgs [] sid taskId c)
        = (.created taskId .pending imgs.length (estimateTime imgs.length []),
           tbl ++ [(taskId, initTask uid imgs [] sid c)]) := by
      simp only [createBatchTask]
      rw [if_neg (by omega), if_neg (by omega)]
      rfl
    rw [hc]
  · rw [runToCompletion, finalizeTask_status, hsz]
    rw [show (initTask uid imgs [] sid c).successCount = 0 from rfl]
    rw [if_neg (by omega)]
  · rw [runToCompletion, (finalizeTask_counts _ _).2.1, hsz]
    rfl

/-- Witness for C10 at a concrete one-image batch with no operations. -/
theorem empty_operations_batch_witness :
    1 ≤ ([⟨"a", none⟩] : List ImageItem).length ∧
    (runToCompletion (initTask 3 [⟨"a", none⟩] [] "minimal_white" 0)
        (fun _ => itemOutcome [] (Except.ok ()) (fun _ => envTextOk)) 9).status = .failed :=
  ⟨by decide,
   (empty_operations_batch [] 3 [⟨"a", none⟩] "minimal_white" "tid" 0 9
     (fun _ => Except.ok ()) (fun _ _ => envTextOk) (by decide) (by decide)).2.2.1⟩

end GlobalPic
